import Mathlib

/-!
Shallow embedding of `src/ggrc/models/custom_attribute_value.py`
(class `CustomAttributeValue`): the record type, the validators
(`_validate_dropdown`, `_validate_map_person`, `validate`), the
`attribute_object` property getter and setter, `_clone`, and
`mk_filter_by_custom`, together with theorems settling the claims
about them.

Python mutable state is passed explicitly; exceptions become an
error type; SQLAlchemy relationships and registries become explicit
lookup environments; dynamic `getattr`/`setattr` over relationship
names becomes an association-list of named relationship slots.
-/

namespace GGRC

/-- Dynamic Python value stored in the `attribute_object_id` slot: the
column is declared Integer, but `_validate_map_person` can assign a
string slice into it before any database coercion happens. -/
inductive PyVal where
  | none
  | int (n : Int)
  | str (s : String)
deriving DecidableEq, Repr

/-- Python exceptions that the embedded code can raise. -/
inductive PyError where
  | valueError (msg : String)
  | typeError (msg : String)
  | attributeError (msg : String)
deriving DecidableEq, Repr

/-- Modelled from the spec: the external collaborator
`CustomAttributeDefinition`, consumed for `attribute_type`,
`definition_type` and `multi_choice_options` (its model lives outside
this file of the repository). -/
structure CustomAttributeDefinition where
  id : Int
  definition_type : String
  attribute_type : String
  multi_choice_options : String
deriving DecidableEq, Repr

/-- The columns of the `custom_attribute_values` table, plus the row id
from the `Base` mixin. -/
structure CustomAttributeValue where
  id : Option Int := Option.none
  custom_attribute_id : Option Int := Option.none
  attributable_id : Option Int := Option.none
  attributable_type : Option String := Option.none
  attribute_value : Option String := Option.none
  attribute_object_id : PyVal := PyVal.none
deriving DecidableEq, Repr

/-- A resolved attributable host object: its database id, its class
name, and the singular table name exposed by `_inflector`. -/
structure HostObj where
  id : Int
  class_name : String
  table_singular : String
deriving DecidableEq, Repr

/-- A row of a mapped model class (such as Person), with the candidate
text fields `mk_filter_by_custom` looks at; the columns are nullable. -/
structure MappedObj where
  id : Int
  email : Option String := Option.none
  title : Option String := Option.none
  slug : Option String := Option.none
deriving DecidableEq, Repr

/-- Python `str.split(sep)` on a list of characters, for a one-character
separator: splitting the empty string yields one empty part, and each
separator occurrence starts a new part. -/
def pySplit (sep : Char) : List Char → List (List Char)
  | [] => [[]]
  | c :: cs =>
    if c = sep then [] :: pySplit sep cs
    else
      match pySplit sep cs with
      | [] => [[c]]
      | r :: rs => (c :: r) :: rs

/-- Python `s.split(sep)` for a one-character separator. -/
def pySplitStr (sep : Char) (s : String) : List String :=
  (pySplit sep s.toList).map List.asString

/-- Python `c in s` membership test for a single character. -/
def pyContains (s : String) (c : Char) : Bool :=
  s.toList.contains c

/-- Python `"{0}".format(x)` applied to an optional string: formatting
None produces the text "None". -/
def pyFormatOptStr : Option String → String
  | Option.none => "None"
  | some s => s

/-- Python `s.startswith(pre)`. -/
def pyStartsWith (s pre : String) : Bool :=
  pre.toList.isPrefixOf s.toList

/-- Python `s[n:]`. -/
def pyDrop (s : String) (n : Nat) : String :=
  (s.toList.drop n).asString

theorem pySplit_ne_nil (sep : Char) (l : List Char) : pySplit sep l ≠ [] := by
  induction l with
  | nil => simp [pySplit]
  | cons c cs ih =>
    by_cases h : c = sep
    · simp [pySplit, h]
    · simp only [pySplit, if_neg h]
      cases hr : pySplit sep cs with
      | nil => simp
      | cons r rs => simp

theorem length_pySplit (sep : Char) (l : List Char) :
    (pySplit sep l).length = l.count sep + 1 := by
  induction l with
  | nil => simp [pySplit]
  | cons c cs ih =>
    by_cases h : c = sep
    · simp [pySplit, h, ih, List.count_cons]
    · simp only [pySplit, if_neg h]
      cases hr : pySplit sep cs with
      | nil => exact absurd hr (pySplit_ne_nil sep cs)
      | cons r rs =>
        have := ih
        rw [hr] at this
        simp only [List.length_cons] at this ⊢
        simp [List.count_cons, h, ← this]

theorem length_pySplitStr (sep : Char) (s : String) :
    (pySplitStr sep s).length = s.toList.count sep + 1 := by
  simp [pySplitStr, length_pySplit]

/-- `_validate_dropdown`: splits the definition option list on commas
and raises ValueError when a truthy `attribute_value` is not among the
options. -/
def validate_dropdown (custom_attribute : CustomAttributeDefinition)
    (v : CustomAttributeValue) : Except PyError CustomAttributeValue :=
  let valid_options := pySplitStr ',' custom_attribute.multi_choice_options
  match v.attribute_value with
  | Option.none => Except.ok v
  | some s =>
    if s ≠ "" ∧ s ∉ valid_options then
      Except.error (PyError.valueError "Invalid custom attribute dropdown option")
    else
      Except.ok v

/-- `_validate_map_person`: when `attribute_value` contains a colon it
is split on colons and unpacked into exactly two parts; the first part
replaces `attribute_value` and the second, still a string, is assigned
to `attribute_object_id`. Unpacking any other number of parts raises
ValueError; membership testing on a None value raises TypeError. -/
def validate_map_person (v : CustomAttributeValue) :
    Except PyError CustomAttributeValue :=
  match v.attribute_value with
  | Option.none =>
    Except.error (PyError.typeError "argument of type NoneType is not iterable")
  | some s =>
    if pyContains s ':' then
      match pySplitStr ':' s with
      | [value, id_] =>
        Except.ok { v with attribute_value := some value,
                           attribute_object_id := PyVal.str id_ }
      | parts =>
        Except.error (PyError.valueError
          (if parts.length > 2 then "too many values to unpack"
           else "need more than 1 value to unpack"))
    else
      Except.ok v

/-- `_validator_map`: the fixed dispatch table from attribute type to
the type-specific validator. -/
def validator_map (attribute_type : String) :
    Option (CustomAttributeDefinition → CustomAttributeValue →
      Except PyError CustomAttributeValue) :=
  if attribute_type = "Dropdown" then
    some (fun d v => validate_dropdown d v)
  else if attribute_type = "Map:Person" then
    some (fun _ v => validate_map_person v)
  else
    Option.none

/-- The `custom_attribute` relationship: the definition row whose id
equals the value row `custom_attribute_id` foreign key. -/
def custom_attribute (defs : List CustomAttributeDefinition)
    (v : CustomAttributeValue) : Option CustomAttributeDefinition :=
  defs.find? (fun d => decide (v.custom_attribute_id = some d.id))

/-- `validate`: resolves the singular type name of the attributable
host (raising AttributeError when the host cannot be resolved), raises
ValueError when no definition matches or when the definition
`definition_type` differs from the host singular name, then dispatches
through `validator_map`; attribute types outside the map validate
without change. -/
def validate (attributable : Option HostObj)
    (defs : List CustomAttributeDefinition)
    (v : CustomAttributeValue) : Except PyError CustomAttributeValue :=
  match attributable with
  | Option.none =>
    Except.error (PyError.attributeError "attributable object is not resolvable")
  | some host =>
    let attributable_type := host.table_singular
    match custom_attribute defs v with
    | Option.none =>
      Except.error (PyError.valueError
        "Custom attribute definition not found: Can not validate custom attribute value")
    | some d =>
      if d.definition_type ≠ attributable_type then
        Except.error (PyError.valueError "Invalid custom attribute definition used.")
      else
        match validator_map d.attribute_type with
        | some f => f d v
        | Option.none => Except.ok v

/-- `_attribute_object_attr`: None unless the definition attribute
type starts with "Map:", in which case it is the derived relationship
name formatted from `attribute_value`. -/
def attribute_object_attr (custom_attribute : CustomAttributeDefinition)
    (v : CustomAttributeValue) : Option String :=
  if pyStartsWith custom_attribute.attribute_type "Map:" then
    some ("attribute_" ++ pyFormatOptStr v.attribute_value)
  else
    Option.none

/-- Environment resolving dynamic relationship attribute reads on the
value instance: a declared relationship yields its (possibly absent)
related row, an undeclared name raises AttributeError. -/
structure RelEnv where
  resolve : String → Except PyError (Option MappedObj)

/-- The `attribute_object` property getter: `getattr` on the derived
relationship name; when `_attribute_object_attr` is None, `getattr`
with a None name raises TypeError. -/
def attribute_object_get (env : RelEnv)
    (custom_attribute : CustomAttributeDefinition)
    (v : CustomAttributeValue) : Except PyError (Option MappedObj) :=
  match attribute_object_attr custom_attribute v with
  | Option.none =>
    Except.error (PyError.typeError "attribute name must be string, not NoneType")
  | some name => env.resolve name

/-- Result of the `attribute_object` setter: the updated row, the
relationship-slot assignments performed, and the exception raised, if
any (Python keeps field writes made before a raise). -/
structure SetAttributeObjectResult where
  value : CustomAttributeValue
  rels : List (String × MappedObj)
  raised : Option PyError
deriving DecidableEq, Repr

/-- The `attribute_object` property setter: assigning None returns at
once without touching the row; assigning an object writes its id into
`attribute_object_id` and then performs `setattr` on the derived
relationship name, which raises TypeError when that name is None. -/
def attribute_object_set (custom_attribute : CustomAttributeDefinition)
    (v : CustomAttributeValue) (rels : List (String × MappedObj))
    (obj : Option MappedObj) : SetAttributeObjectResult :=
  match obj with
  | Option.none => { value := v, rels := rels, raised := Option.none }
  | some o =>
    let v2 := { v with attribute_object_id := PyVal.int o.id }
    match attribute_object_attr custom_attribute v2 with
    | Option.none =>
      { value := v2, rels := rels,
        raised := some (PyError.typeError "attribute name must be string, not NoneType") }
    | some name =>
      { value := v2, rels := (name, o) :: rels, raised := Option.none }

/-- `_clone`: builds a new row copying the definition id, host type,
value and referenced-object id, with the target object id as
`attributable_id`; the database assigns the new row id at flush. -/
def _clone (v : CustomAttributeValue) (obj : HostObj) : CustomAttributeValue :=
  { id := Option.none
    custom_attribute_id := v.custom_attribute_id
    attributable_id := some obj.id
    attributable_type := v.attributable_type
    attribute_value := v.attribute_value
    attribute_object_id := v.attribute_object_id }

/-- The environment `mk_filter_by_custom` queries: the definition table
and the `all_models` registry, each registered model name carrying its
rows. -/
structure ModelsEnv where
  definitions : List CustomAttributeDefinition
  models : List (String × List MappedObj)
deriving Repr

/-- The definition query in `mk_filter_by_custom`:
`filter_by(id=custom_attribute_id).first()`. -/
def find_attr_def (env : ModelsEnv) (custom_attribute_id : Int) :
    Option CustomAttributeDefinition :=
  (env.definitions.filter (fun d => decide (d.id = custom_attribute_id))).head?

/-- `getattr(all_models, map_type, None)`: resolve a registered model
name to its rows. -/
def lookup_model (env : ModelsEnv) (name : String) :
    Option (List MappedObj) :=
  (env.models.find? (fun p => decide (p.1 = name))).map Prod.snd

/-- `mk_filter_by_custom`: for a resolvable "Map:"-typed definition the
produced filter tests a host row through an exists subquery joining the
mapped rows on `attribute_object_id` and applying the predicate to the
email, title and slug fields under or_; every other case produces the
plain filter applying the predicate to the stored `attribute_value`. -/
def mk_filter_by_custom (env : ModelsEnv) (cavs : List CustomAttributeValue)
    (obj_class_name : String) (custom_attribute_id : Int) :
    (Option String → Bool) → HostObj → Bool :=
  let filter_by_custom := fun (predicate : Option String → Bool) (host : HostObj) =>
    cavs.any (fun c =>
      decide (c.custom_attribute_id = some custom_attribute_id) &&
      decide (c.attributable_type = some obj_class_name) &&
      decide (c.attributable_id = some host.id) &&
      predicate c.attribute_value)
  match find_attr_def env custom_attribute_id with
  | some attr_def =>
    if pyStartsWith attr_def.attribute_type "Map:" then
      let map_type := pyDrop attr_def.attribute_type 4
      match lookup_model env map_type with
      | some rows =>
        fun (predicate : Option String → Bool) (host : HostObj) =>
          cavs.any (fun c =>
            decide (c.custom_attribute_id = some custom_attribute_id) &&
            decide (c.attributable_type = some obj_class_name) &&
            decide (c.attributable_id = some host.id) &&
            rows.any (fun r =>
              decide (c.attribute_object_id = PyVal.int r.id) &&
              (predicate r.email || predicate r.title || predicate r.slug)))
      | Option.none => filter_by_custom
    else filter_by_custom
  | Option.none => filter_by_custom

/-- The claim side condition for the reference branch of
`mk_filter_by_custom`: some value row for this definition and host
joins, via `attribute_object_id`, a mapped row on which the predicate
holds for at least one of email, title or slug. -/
def RefFilterMatch (cavs : List CustomAttributeValue) (rows : List MappedObj)
    (obj_class_name : String) (custom_attribute_id : Int)
    (predicate : Option String → Bool) (host : HostObj) : Prop :=
  ∃ c ∈ cavs, c.custom_attribute_id = some custom_attribute_id ∧
    c.attributable_type = some obj_class_name ∧
    c.attributable_id = some host.id ∧
    ∃ r ∈ rows, c.attribute_object_id = PyVal.int r.id ∧
      (predicate r.email = true ∨ predicate r.title = true ∨ predicate r.slug = true)

/-- The claim side condition for the plain branch of
`mk_filter_by_custom`: some value row for this definition and host has
a stored `attribute_value` satisfying the predicate. -/
def PlainFilterMatch (cavs : List CustomAttributeValue)
    (obj_class_name : String) (custom_attribute_id : Int)
    (predicate : Option String → Bool) (host : HostObj) : Prop :=
  ∃ c ∈ cavs, c.custom_attribute_id = some custom_attribute_id ∧
    c.attributable_type = some obj_class_name ∧
    c.attributable_id = some host.id ∧
    predicate c.attribute_value = true

/-! Concrete fixtures used by witnesses and counterexamples. -/

/-- A concrete attributable host object. -/
def hostControl : HostObj :=
  { id := 7, class_name := "Control", table_singular := "control" }

/-- A concrete dropdown definition with options "A,B,C". -/
def defDropdown : CustomAttributeDefinition :=
  { id := 1, definition_type := "control", attribute_type := "Dropdown",
    multi_choice_options := "A,B,C" }

/-- A concrete person-reference definition. -/
def defPerson : CustomAttributeDefinition :=
  { id := 2, definition_type := "control", attribute_type := "Map:Person",
    multi_choice_options := "" }

/-- A concrete plain-text definition. -/
def defText : CustomAttributeDefinition :=
  { id := 3, definition_type := "control", attribute_type := "Text",
    multi_choice_options := "" }

/-- A concrete value row for the dropdown definition. -/
def vDrop : CustomAttributeValue :=
  { custom_attribute_id := some 1, attributable_id := some 7,
    attributable_type := some "Control", attribute_value := some "B" }

/-- A concrete value row for the person definition, holding the
combined value-colon-id input form. -/
def vPerson : CustomAttributeValue :=
  { custom_attribute_id := some 2, attributable_id := some 7,
    attributable_type := some "Control", attribute_value := some "Person:42" }

/-! Helper lemmas on the shape of `validate`. -/

theorem validate_dispatches (host : HostObj)
    (defs : List CustomAttributeDefinition) (d : CustomAttributeDefinition)
    (v : CustomAttributeValue)
    (hd : custom_attribute defs v = some d)
    (hm : d.definition_type = host.table_singular) :
    validate (some host) defs v =
      match validator_map d.attribute_type with
      | some f => f d v
      | Option.none => Except.ok v := by
  unfold validate
  rw [hd]
  simp [hm]

theorem validate_eq_validate_dropdown (host : HostObj)
    (defs : List CustomAttributeDefinition) (d : CustomAttributeDefinition)
    (v : CustomAttributeValue)
    (hd : custom_attribute defs v = some d)
    (ht : d.attribute_type = "Dropdown")
    (hm : d.definition_type = host.table_singular) :
    validate (some host) defs v = validate_dropdown d v := by
  rw [validate_dispatches host defs d v hd hm, ht]
  simp [validator_map]

theorem validate_eq_validate_map_person (host : HostObj)
    (defs : List CustomAttributeDefinition) (d : CustomAttributeDefinition)
    (v : CustomAttributeValue)
    (hd : custom_attribute defs v = some d)
    (ht : d.attribute_type = "Map:Person")
    (hm : d.definition_type = host.table_singular) :
    validate (some host) defs v = validate_map_person v := by
  rw [validate_dispatches host defs d v hd hm, ht]
  simp [validator_map]

/-- C5: with a resolvable attributable host, `validate` fails with the
missing-definition ValueError when no definition matches the
`custom_attribute_id` foreign key. -/
theorem validate_missing_definition (host : HostObj)
    (defs : List CustomAttributeDefinition) (v : CustomAttributeValue)
    (hd : custom_attribute defs v = Option.none) :
    validate (some host) defs v =
      Except.error (PyError.valueError
        "Custom attribute definition not found: Can not validate custom attribute value") := by
  unfold validate
  rw [hd]

/-- C5 witness: an empty definition table makes validation of a
concrete value fail with the missing-definition error. -/
theorem validate_missing_definition_witness :
    validate (some hostControl) [] vDrop =
      Except.error (PyError.valueError
        "Custom attribute definition not found: Can not validate custom attribute value") :=
  validate_missing_definition hostControl [] vDrop rfl

/-- C6: when the matching definition exists but its `definition_type`
differs from the singular type name of the actual attributable host,
`validate` fails with the invalid-definition ValueError. -/
theorem validate_definition_type_mismatch (host : HostObj)
    (defs : List CustomAttributeDefinition) (d : CustomAttributeDefinition)
    (v : CustomAttributeValue)
    (hd : custom_attribute defs v = some d)
    (hm : d.definition_type ≠ host.table_singular) :
    validate (some host) defs v =
      Except.error (PyError.valueError "Invalid custom attribute definition used.") := by
  unfold validate
  rw [hd]
  simp [hm]

/-- C6 witness: a dropdown definition declared for hosts of singular
name "control" rejects a host whose singular name is "program". -/
theorem validate_definition_type_mismatch_witness :
    validate (some { id := 7, class_name := "Program", table_singular := "program" })
        [defDropdown] vDrop =
      Except.error (PyError.valueError "Invalid custom attribute definition used.") :=
  validate_definition_type_mismatch
    { id := 7, class_name := "Program", table_singular := "program" }
    [defDropdown] defDropdown vDrop rfl (by decide)

/-- C7: after the definition and host-type checks, `validate` selects
the validator from the fixed mapping keyed by the definition attribute
type: "Dropdown" dispatches to the dropdown validator, "Map:Person" to
the person validator, and any other attribute type performs no extra
validation, succeeding with the value unchanged. -/
theorem validate_dispatch_table (host : HostObj)
    (defs : List CustomAttributeDefinition) (d : CustomAttributeDefinition)
    (v : CustomAttributeValue)
    (hd : custom_attribute defs v = some d)
    (hm : d.definition_type = host.table_singular) :
    (d.attribute_type = "Dropdown" →
      validate (some host) defs v = validate_dropdown d v) ∧
    (d.attribute_type = "Map:Person" →
      validate (some host) defs v = validate_map_person v) ∧
    (d.attribute_type ≠ "Dropdown" → d.attribute_type ≠ "Map:Person" →
      validate (some host) defs v = Except.ok v) := by
  refine ⟨?_, ?_, ?_⟩
  · intro ht
    exact validate_eq_validate_dropdown host defs d v hd ht hm
  · intro ht
    exact validate_eq_validate_map_person host defs d v hd ht hm
  · intro h1 h2
    rw [validate_dispatches host defs d v hd hm]
    simp [validator_map, h1, h2]

/-- C7 witness: instantiated dispatch facts for a concrete text-typed
definition on a concrete host. -/
theorem validate_dispatch_table_witness :
    (defText.attribute_type = "Dropdown" →
      validate (some hostControl) [defText]
          { custom_attribute_id := some 3, attribute_value := some "hello" } =
        validate_dropdown defText
          { custom_attribute_id := some 3, attribute_value := some "hello" }) ∧
    (defText.attribute_type = "Map:Person" →
      validate (some hostControl) [defText]
          { custom_attribute_id := some 3, attribute_value := some "hello" } =
        validate_map_person
          { custom_attribute_id := some 3, attribute_value := some "hello" }) ∧
    (defText.attribute_type ≠ "Dropdown" → defText.attribute_type ≠ "Map:Person" →
      validate (some hostControl) [defText]
          { custom_attribute_id := some 3, attribute_value := some "hello" } =
        Except.ok { custom_attribute_id := some 3, attribute_value := some "hello" }) :=
  validate_dispatch_table hostControl [defText] defText
    { custom_attribute_id := some 3, attribute_value := some "hello" } rfl rfl

/-- C1: for a value with a dropdown-typed matching definition on a
resolvable host, `validate` succeeds (leaving the value unchanged) iff
`attribute_value` is empty or a member of the comma-split option list
of the definition, and fails with the dropdown ValueError otherwise. -/
theorem dropdown_validate_iff (host : HostObj)
    (defs : List CustomAttributeDefinition) (d : CustomAttributeDefinition)
    (v : CustomAttributeValue)
    (hd : custom_attribute defs v = some d)
    (ht : d.attribute_type = "Dropdown")
    (hm : d.definition_type = host.table_singular) :
    (validate (some host) defs v = Except.ok v ↔
      (v.attribute_value = Option.none ∨ v.attribute_value = some "" ∨
        ∃ s, v.attribute_value = some s ∧
          s ∈ pySplitStr ',' d.multi_choice_options)) ∧
    (¬ (v.attribute_value = Option.none ∨ v.attribute_value = some "" ∨
        ∃ s, v.attribute_value = some s ∧
          s ∈ pySplitStr ',' d.multi_choice_options) →
      validate (some host) defs v =
        Except.error (PyError.valueError "Invalid custom attribute dropdown option")) := by
  rw [validate_eq_validate_dropdown host defs d v hd ht hm]
  unfold validate_dropdown
  cases hv : v.attribute_value with
  | none => simp [hv]
  | some s =>
    by_cases hs : s = ""
    · subst hs
      simp [hv]
    · by_cases hmem : s ∈ pySplitStr ',' d.multi_choice_options
      · simp [hv, hs, hmem]
      · simp [hv, hs, hmem]

/-- C1 witness: option list "A,B,C" accepts the concrete value "B". -/
theorem dropdown_validate_iff_witness :
    validate (some hostControl) [defDropdown] vDrop = Except.ok vDrop :=
  (dropdown_validate_iff hostControl [defDropdown] defDropdown vDrop rfl rfl rfl).1.mpr
    (Or.inr (Or.inr ⟨"B", rfl, by decide⟩))

/-- C2 counterexample: validating the combined input "Person:42" under
a Map:Person definition stores the STRING "42" in
`attribute_object_id`, which is not the integer 42; the integer only
appears after database-level coercion, outside `validate`. -/
theorem map_person_string_id_counterexample :
    validate (some hostControl) [defPerson] vPerson =
      Except.ok { vPerson with attribute_value := some "Person",
                               attribute_object_id := PyVal.str "42" } ∧
    PyVal.str "42" ≠ PyVal.int 42 := by
  exact ⟨rfl, by decide⟩

/-- C2 amended: for a value with a Map:Person matching definition on a
resolvable host, setting `attribute_value` to "Person:42" and then
validating yields `attribute_value` equal to "Person" and
`attribute_object_id` equal to the string "42" (the raw split part;
integer coercion happens only at the database layer). -/
theorem map_person_combined_input_split (host : HostObj)
    (defs : List CustomAttributeDefinition) (d : CustomAttributeDefinition)
    (v : CustomAttributeValue)
    (hd : custom_attribute defs v = some d)
    (ht : d.attribute_type = "Map:Person")
    (hm : d.definition_type = host.table_singular)
    (hv : v.attribute_value = some "Person:42") :
    validate (some host) defs v =
      Except.ok { v with attribute_value := some "Person",
                         attribute_object_id := PyVal.str "42" } := by
  rw [validate_eq_validate_map_person host defs d v hd ht hm]
  unfold validate_map_person
  rw [hv]
  rfl

/-- C2 witness for the amended claim, at the concrete fixtures. -/
theorem map_person_combined_input_split_witness :
    validate (some hostControl) [defPerson] vPerson =
      Except.ok { vPerson with attribute_value := some "Person",
                               attribute_object_id := PyVal.str "42" } :=
  map_person_combined_input_split hostControl [defPerson] defPerson vPerson
    rfl rfl rfl rfl

/-- C4: the clone of a value onto a target host copies the definition
id, host type, stored value and referenced-object id, and takes the
target object id as `attributable_id`. -/
theorem clone_preserves_fields (v : CustomAttributeValue) (obj : HostObj) :
    (_clone v obj).custom_attribute_id = v.custom_attribute_id ∧
    (_clone v obj).attributable_type = v.attributable_type ∧
    (_clone v obj).attribute_value = v.attribute_value ∧
    (_clone v obj).attribute_object_id = v.attribute_object_id ∧
    (_clone v obj).attributable_id = some obj.id :=
  ⟨rfl, rfl, rfl, rfl, rfl⟩

/-- C10: for a value with a Map:Person matching definition on a
resolvable host whose `attribute_value` holds two or more colons,
`validate` fails with the too-many-values unpacking ValueError instead
of splitting the value. -/
theorem map_person_multi_colon_unpack_error (host : HostObj)
    (defs : List CustomAttributeDefinition) (d : CustomAttributeDefinition)
    (v : CustomAttributeValue) (s : String)
    (hd : custom_attribute defs v = some d)
    (ht : d.attribute_type = "Map:Person")
    (hm : d.definition_type = host.table_singular)
    (hv : v.attribute_value = some s)
    (hc : 2 ≤ s.toList.count ':') :
    validate (some host) defs v =
      Except.error (PyError.valueError "too many values to unpack") := by
  rw [validate_eq_validate_map_person host defs d v hd ht hm]
  unfold validate_map_person
  have hcont : pyContains s ':' = true := by
    unfold pyContains
    have hmem : ':' ∈ s.toList := List.count_pos_iff.mp (by omega)
    simpa using hmem
  simp only [hv, hcont, if_true]
  have hlen : (pySplitStr ':' s).length = s.toList.count ':' + 1 :=
    length_pySplitStr ':' s
  rcases hsp : pySplitStr ':' s with _ | ⟨a, _ | ⟨b, _ | ⟨c, t⟩⟩⟩
  · rw [hsp] at hlen
    simp only [List.length_nil] at hlen
    omega
  · rw [hsp] at hlen
    simp only [List.length_cons, List.length_nil] at hlen
    omega
  · rw [hsp] at hlen
    simp only [List.length_cons, List.length_nil] at hlen
    omega
  · show Except.error (PyError.valueError
        (if (a :: b :: c :: t).length > 2 then "too many values to unpack"
         else "need more than 1 value to unpack")) =
      Except.error (PyError.valueError "too many values to unpack")
    have hgt : (a :: b :: c :: t).length > 2 := by
      simp only [List.length_cons]
      omega
    rw [if_pos hgt]

/-- C10 witness: the concrete value "a:b:c" fails to unpack. -/
theorem map_person_multi_colon_unpack_error_witness :
    validate (some hostControl) [defPerson]
        { custom_attribute_id := some 2, attributable_id := some 7,
          attributable_type := some "Control", attribute_value := some "a:b:c" } =
      Except.error (PyError.valueError "too many values to unpack") :=
  map_person_multi_colon_unpack_error hostControl [defPerson] defPerson
    { custom_attribute_id := some 2, attributable_id := some 7,
      attributable_type := some "Control", attribute_value := some "a:b:c" }
    "a:b:c" rfl rfl rfl rfl (by decide)

/-- A value row for the person definition after the combined input has
been split. -/
def vPersonSplit : CustomAttributeValue :=
  { vPerson with attribute_value := some "Person",
                 attribute_object_id := PyVal.str "42" }

/-- A concrete mapped Person row. -/
def person42 : MappedObj :=
  { id := 42, email := some "bob@example.com" }

/-- A relationship environment in which every relationship name is
declared and resolves to no related row. -/
def relEnvAllEmpty : RelEnv :=
  { resolve := fun _ => Except.ok Option.none }

/-- C8 counterexample: for a value whose definition attribute type is
"Text" (not "Map:"-prefixed), reading `attribute_object` raises
TypeError (`getattr` is handed the None relationship name) instead of
yielding empty, even in an environment where every relationship
resolves to empty. -/
theorem attribute_object_nonmap_counterexample :
    attribute_object_get relEnvAllEmpty defText vDrop =
      Except.error (PyError.typeError "attribute name must be string, not NoneType") ∧
    Except.error (PyError.typeError "attribute name must be string, not NoneType") ≠
      (Except.ok Option.none : Except PyError (Option MappedObj)) :=
  ⟨rfl, fun h => Except.noConfusion h⟩

/-- C8 amended: reading `attribute_object` resolves the mapped record
through the derived relationship name formed from "attribute_" and the
type name held in `attribute_value` when the definition attribute type
starts with "Map:"; for every other attribute type the derived name is
None and the read raises a TypeError instead of yielding empty. -/
theorem attribute_object_resolution (env : RelEnv)
    (d : CustomAttributeDefinition) (v : CustomAttributeValue) :
    (pyStartsWith d.attribute_type "Map:" = true →
      attribute_object_get env d v =
        env.resolve ("attribute_" ++ pyFormatOptStr v.attribute_value)) ∧
    (pyStartsWith d.attribute_type "Map:" = false →
      attribute_object_get env d v =
        Except.error (PyError.typeError "attribute name must be string, not NoneType")) := by
  constructor
  · intro h
    unfold attribute_object_get attribute_object_attr
    rw [if_pos h]
  · intro h
    unfold attribute_object_get attribute_object_attr
    rw [if_neg (by simp [h])]

/-- C8 witness: under the Map:Person definition, the read goes through
the derived relationship name "attribute_Person". -/
theorem attribute_object_resolution_witness :
    attribute_object_get relEnvAllEmpty defPerson vPersonSplit =
      relEnvAllEmpty.resolve ("attribute_" ++ pyFormatOptStr vPersonSplit.attribute_value) :=
  (attribute_object_resolution relEnvAllEmpty defPerson vPersonSplit).1 rfl

/-- C9: assigning None through the `attribute_object` setter is a
no-op, returning the row and the relationship slots unchanged and
raising nothing; assigning an object under a "Map:"-typed definition
writes its id into `attribute_object_id` and records the assignment to
the derived relationship name. -/
theorem attribute_object_setter_spec (d : CustomAttributeDefinition)
    (v : CustomAttributeValue) (rels : List (String × MappedObj)) (o : MappedObj)
    (hm : pyStartsWith d.attribute_type "Map:" = true) :
    attribute_object_set d v rels Option.none =
      { value := v, rels := rels, raised := Option.none } ∧
    attribute_object_set d v rels (some o) =
      { value := { v with attribute_object_id := PyVal.int o.id },
        rels := ("attribute_" ++ pyFormatOptStr v.attribute_value, o) :: rels,
        raised := Option.none } := by
  constructor
  · rfl
  · simp [attribute_object_set, attribute_object_attr, hm]

/-- C9 witness: the setter at the concrete person fixtures. -/
theorem attribute_object_setter_spec_witness :
    attribute_object_set defPerson vPersonSplit [] Option.none =
      { value := vPersonSplit, rels := [], raised := Option.none } ∧
    attribute_object_set defPerson vPersonSplit [] (some person42) =
      { value := { vPersonSplit with attribute_object_id := PyVal.int person42.id },
        rels := [("attribute_" ++ pyFormatOptStr vPersonSplit.attribute_value, person42)],
        raised := Option.none } :=
  attribute_object_setter_spec defPerson vPersonSplit [] person42 rfl

/-- C3: the filter produced by `mk_filter_by_custom` matches a host
row as follows: under a "Map:"-typed definition whose referenced type
resolves in the registry, it matches exactly when some value row of
this definition and host joins, via `attribute_object_id`, a row of
the referenced type on which the predicate holds for at least one of
email, title or slug; under a definition of any other type it matches
exactly the hosts whose stored `attribute_value` satisfies the
predicate. -/
theorem mk_filter_by_custom_branches (env : ModelsEnv)
    (cavs : List CustomAttributeValue) (obj_class_name : String)
    (caid1 caid2 : Int) (d1 d2 : CustomAttributeDefinition)
    (rows : List MappedObj) (predicate : Option String → Bool) (host : HostObj)
    (h1 : find_attr_def env caid1 = some d1)
    (h2 : pyStartsWith d1.attribute_type "Map:" = true)
    (h3 : lookup_model env (pyDrop d1.attribute_type 4) = some rows)
    (h4 : find_attr_def env caid2 = some d2)
    (h5 : pyStartsWith d2.attribute_type "Map:" = false) :
    (mk_filter_by_custom env cavs obj_class_name caid1 predicate host = true ↔
      RefFilterMatch cavs rows obj_class_name caid1 predicate host) ∧
    (mk_filter_by_custom env cavs obj_class_name caid2 predicate host = true ↔
      PlainFilterMatch cavs obj_class_name caid2 predicate host) := by
  constructor
  · unfold mk_filter_by_custom
    simp only [h1, h2, if_true, h3]
    unfold RefFilterMatch
    simp only [List.any_eq_true, Bool.and_eq_true, Bool.or_eq_true, decide_eq_true_eq]
    constructor
    · rintro ⟨c, hc, ⟨⟨e1, e2⟩, e3⟩, r, hr, er, ep⟩
      exact ⟨c, hc, e1, e2, e3, r, hr, er, by tauto⟩
    · rintro ⟨c, hc, e1, e2, e3, r, hr, er, ep⟩
      exact ⟨c, hc, ⟨⟨e1, e2⟩, e3⟩, r, hr, er, by tauto⟩
  · unfold mk_filter_by_custom
    simp only [h4, h5, Bool.false_eq_true, if_false]
    unfold PlainFilterMatch
    simp only [List.any_eq_true, Bool.and_eq_true, decide_eq_true_eq]
    constructor
    · rintro ⟨c, hc, ⟨⟨e1, e2⟩, e3⟩, ep⟩
      exact ⟨c, hc, e1, e2, e3, ep⟩
    · rintro ⟨c, hc, e1, e2, e3, ep⟩
      exact ⟨c, hc, ⟨⟨e1, e2⟩, e3⟩, ep⟩

/-- A stored (already validated) person-reference value row. -/
def vPersonStored : CustomAttributeValue :=
  { custom_attribute_id := some 2, attributable_id := some 7,
    attributable_type := some "Control", attribute_value := some "Person",
    attribute_object_id := PyVal.int 42 }

/-- A concrete environment with three definitions and a registry
holding a Person model with one row. -/
def modelsEnvEx : ModelsEnv :=
  { definitions := [defDropdown, defPerson, defText],
    models := [("Person", [person42])] }

/-- A concrete predicate satisfied by the Person email and by the
stored dropdown value "B". -/
def predEx : Option String → Bool :=
  fun s => decide (s = some "bob@example.com" ∨ s = some "B")

/-- C3 witness: under the Map:Person definition the filter matches the
host through the Person row email; under the dropdown definition it
matches through the stored value. -/
theorem mk_filter_by_custom_branches_witness :
    mk_filter_by_custom modelsEnvEx [vPersonStored, vDrop] "Control" 2
      predEx hostControl = true ∧
    mk_filter_by_custom modelsEnvEx [vPersonStored, vDrop] "Control" 1
      predEx hostControl = true :=
  ⟨(mk_filter_by_custom_branches modelsEnvEx [vPersonStored, vDrop] "Control" 2 1
      defPerson defDropdown [person42] predEx hostControl rfl rfl rfl rfl rfl).1.mpr
      (by unfold RefFilterMatch; decide),
   (mk_filter_by_custom_branches modelsEnvEx [vPersonStored, vDrop] "Control" 2 1
      defPerson defDropdown [person42] predEx hostControl rfl rfl rfl rfl rfl).2.mpr
      (by unfold PlainFilterMatch; decide)⟩

end GGRC
